import Mathlib

/-!
Verification of the VeriNexus speedtest monitoring core against its
natural-language specification.

The embedding follows two source files:
- check.py (the central Watchdog): settings retrieval, the reconciliation
  loop check_node_status, perform_keepalive_check, perform_heartbeat_write,
  refresh_suspended_devices, clean_exit.
- test.py (the device-side Agent): monitor_device, write_status_to_influxdb,
  calculate_uptime_percentages, clean_exit.

Statuses are modelled as the literal strings the Python code writes
("up", "down", "maintenance", "unknown"); timestamps are rationals
standing for seconds.
-/

/-- One row of the keepalive LAST-per-device query result in
perform_keepalive_check (check.py line 170): the device MAC together with
the timestamp of its most recent keepalive record. -/
structure KeepaliveEntry where
  mac : String
  time : ℚ
deriving DecidableEq, Repr

/-- The slice of the shared InfluxDB store that one Watchdog tick reads:
the suspended_devices rows (refresh_suspended_devices, check.py 298-311),
the last keepalive per device (check.py 170), and the set of devices with
any device_status row (the LAST-per-device query in perform_heartbeat_write,
check.py 254). -/
structure WatchdogStore where
  suspended : List String
  keepalive : List KeepaliveEntry
  statusDevices : List String
deriving DecidableEq, Repr

/-- Devices appearing in the keepalive query result (check.py 178-181). -/
def allKeepaliveDevices (st : WatchdogStore) : List String :=
  st.keepalive.map (·.mac)

/-- The device set iterated by perform_keepalive_check (check.py 176-184):
the union of the suspended devices and the devices with keepalive history. -/
def allDevices (st : WatchdogStore) : List String :=
  (st.suspended ++ allKeepaliveDevices st).dedup

/-- Timestamp of the last keepalive of a device, when one exists
(check.py 189-199: the first series matching the MAC). -/
def lastKeepalive (st : WatchdogStore) (mac : String) : Option ℚ :=
  (st.keepalive.find? (fun e => e.mac == mac)).map (·.time)

/-- The per-device effective-status decision of perform_keepalive_check
(check.py 186-220).  When the device has no keepalive record the code sets
time_diff to float infinity (line 203), which always exceeds the finite
threshold, hence the none branch yields "down". -/
def newStatusOf (st : WatchdogStore) (now threshold : ℚ) (mac : String) : String :=
  if mac ∈ st.suspended then "maintenance"
  else
    match lastKeepalive st mac with
    | some t => if now - t > threshold then "down" else "up"
    | none => "down"

/-- In-memory node_statuses dictionary of check.py (line 50), newest
binding first. -/
abbrev StatusMap := List (String × String)

/-- One appended device_status row (check.py 224-235 and 276-287). -/
structure StatusEvent where
  mac : String
  status : String
  time : ℚ
deriving DecidableEq, Repr

/-- The mutable state of the check_node_status loop (check.py 126-152):
the two timer anchors, the node_statuses cache and the device_status rows
written so far (the append-only log). -/
structure WatchState where
  lastKA : ℚ
  lastHB : ℚ
  nodeStatuses : StatusMap
  events : List StatusEvent
deriving DecidableEq, Repr

/-- Body of the per-device loop of perform_keepalive_check
(check.py 184-240): write a device_status row and update node_statuses only
when the cached status differs from the freshly computed one. -/
def keepaliveCheckDevice (st : WatchdogStore) (now threshold : ℚ)
    (s : WatchState) (mac : String) : WatchState :=
  let ns := newStatusOf st now threshold mac
  if s.nodeStatuses.lookup mac = some ns then s
  else ⟨s.lastKA, s.lastHB, (mac, ns) :: s.nodeStatuses,
        s.events ++ [⟨mac, ns, now⟩]⟩

/-- perform_keepalive_check (check.py 166-243), iterating the device-loop
body over every known device. -/
def performKeepaliveCheck (st : WatchdogStore) (now threshold : ℚ)
    (s : WatchState) : WatchState :=
  (allDevices st).foldl (keepaliveCheckDevice st now threshold) s

/-- The device set iterated by perform_heartbeat_write (check.py 257-262):
suspended devices plus devices with device_status history. -/
def heartbeatDevices (st : WatchdogStore) : List String :=
  (st.suspended ++ st.statusDevices).dedup

/-- Status reaffirmed for one device by perform_heartbeat_write
(check.py 268-274): maintenance when suspended, else the cached
node_statuses entry, defaulting to "unknown". -/
def heartbeatStatus (st : WatchdogStore) (m : StatusMap) (mac : String) : String :=
  if mac ∈ st.suspended then "maintenance"
  else (m.lookup mac).getD "unknown"

/-- perform_heartbeat_write (check.py 245-296): unconditionally append one
device_status row per known device. -/
def performHeartbeatWrite (st : WatchdogStore) (now : ℚ) (s : WatchState) : WatchState :=
  ⟨s.lastKA, s.lastHB, s.nodeStatuses,
   s.events ++ (heartbeatDevices st).map
     (fun mac => ⟨mac, heartbeatStatus st s.nodeStatuses mac, now⟩)⟩

/-- One iteration of the check_node_status while-loop (check.py 130-156):
run the keepalive check when at least threshold seconds elapsed since the
last one, then run the heartbeat write when at least heartbeat_interval
seconds elapsed since the last heartbeat write. -/
def watchdogTick (st : WatchdogStore) (threshold heartbeatInterval now : ℚ)
    (s : WatchState) : WatchState :=
  let s1 :=
    if threshold ≤ now - s.lastKA then
      let s' := performKeepaliveCheck st now threshold s
      ⟨now, s'.lastHB, s'.nodeStatuses, s'.events⟩
    else s
  if heartbeatInterval ≤ now - s1.lastHB then
    let s2 := performHeartbeatWrite st now s1
    ⟨s2.lastKA, now, s2.nodeStatuses, s2.events⟩
  else s1

/-- Status computed by the Agent each STATUS_INTERVAL (test.py 463-481):
up when connectivity succeeds and disconnection is not simulated, else
down; overridden to maintenance when the device is suspended. -/
def agentCurrentStatus (connectivityOk simulateDisconnect isSuspended : Bool) : String :=
  let base := if !simulateDisconnect && connectivityOk then "up" else "down"
  if isSuspended then "maintenance" else base

/-- Skeleton shared by perform_keepalive_check (check.py 166-243) and
perform_heartbeat_write (check.py 245-296): a single try/except wraps the
whole for-loop over devices, so the first raising device ends the pass and
the exception is swallowed by the handler (logged, not re-raised).  Returns
the devices actually processed and the caught error, if any. -/
def performDevicePass (devices : List String) (f : String → Except String Unit) :
    List String × Option String :=
  match devices with
  | [] => ([], none)
  | d :: rest =>
    match f d with
    | Except.ok _ =>
      let r := performDevicePass rest f
      (d :: r.1, r.2)
    | Except.error e => ([], some e)

/-- Truth value of an Except result, used to describe which devices of a
pass succeed. -/
def exceptOk : Except String Unit → Bool
  | Except.ok _ => true
  | Except.error _ => false

/-- Settings map as loaded by get_settings in either file: setting name
to raw string value. -/
abbrev Settings := List (String × String)

/-- Python settings.get(key, default) (check.py 113, test.py 387-401). -/
def getSettingD (s : Settings) (key dflt : String) : String :=
  (s.lookup key).getD dflt

/-- Accumulate decimal digits; none as soon as a non-digit appears. -/
def pyNatDigits? (cs : List Char) : Option ℕ :=
  cs.foldl
    (fun acc c =>
      match acc with
      | some n => if c.isDigit then some (n * 10 + (c.toNat - 48)) else none
      | none => none)
    (some 0)

/-- Python int() applied to a setting string: an optional sign followed by
at least one decimal digit; anything else raises ValueError, modelled as
none.  (Whitespace trimming and underscore separators are not exercised by
these settings and are left out.) -/
def pyInt? (s : String) : Option ℤ :=
  match s.toList with
  | [] => none
  | '-' :: [] => none
  | '-' :: cs => (pyNatDigits? cs).map (fun n => -(n : ℤ))
  | '+' :: [] => none
  | '+' :: cs => (pyNatDigits? cs).map (fun n => (n : ℤ))
  | cs => (pyNatDigits? cs).map (fun n => (n : ℤ))

/-- Outcome of the Watchdog startup sequence in check_node_status
(check.py 102-124): exit when the settings read failed or was empty
(lines 105-109), otherwise run with CHECKALIVE and HEARTBEAT parsed,
falling back to 120 and 300 on a ValueError (lines 112-122), and
NTP_SERVER defaulted (line 124). -/
inductive WatchdogStartup
  | exited
  | running (threshold heartbeatInterval : ℤ) (ntpServer : String)
deriving DecidableEq, Repr

def checkNodeStatusStartup (settings : Option Settings) : WatchdogStartup :=
  match settings with
  | none => WatchdogStartup.exited
  | some s =>
    if s.isEmpty then WatchdogStartup.exited
    else
      WatchdogStartup.running
        ((pyInt? (getSettingD s "CHECKALIVE" "120")).getD 120)
        ((pyInt? (getSettingD s "HEARTBEAT" "300")).getD 300)
        (getSettingD s "NTP_SERVER" "pool.ntp.org")

/-- Outcome of the Agent startup sequence in monitor_device
(test.py 371-393): exit when the settings read failed or was empty
(lines 372-377); the numeric settings are parsed with a bare int() with no
try/except around it, so a malformed value raises an uncaught ValueError
and kills the process, modelled as crashed with the offending name. -/
inductive AgentStartup
  | exited
  | crashed (settingName : String)
  | running (statusInterval keepaliveInterval nodeUpdateInterval alertThreshold : ℤ)
deriving DecidableEq, Repr

def monitorDeviceStartup (settings : Option Settings) : AgentStartup :=
  match settings with
  | none => AgentStartup.exited
  | some s =>
    if s.isEmpty then AgentStartup.exited
    else
      match pyInt? (getSettingD s "STATUS_INTERVAL" "2") with
      | none => AgentStartup.crashed "STATUS_INTERVAL"
      | some si =>
        match pyInt? (getSettingD s "KEEPALIVE" "60") with
        | none => AgentStartup.crashed "KEEPALIVE"
        | some ka =>
          match pyInt? (getSettingD s "NODE_UPDATE" "120") with
          | none => AgentStartup.crashed "NODE_UPDATE"
          | some nu =>
            match pyInt? (getSettingD s "ALERT_THRESHOLD" "120") with
            | none => AgentStartup.crashed "ALERT_THRESHOLD"
            | some al => AgentStartup.running si ka nu al

/-- One cached Agent status event (test.py 491): status and the ISO
timestamp string it was observed at. -/
structure AgentEvent where
  status : String
  timestamp : String
deriving DecidableEq, Repr

/-- write_status_to_influxdb (test.py 225-254): when the cache is nonempty
or force_write is set, every cached event is written and the cache cleared;
otherwise nothing is written.  Returns (written rows, remaining cache). -/
def writeStatusToInfluxdb (statusEvents : List AgentEvent) (forceWrite : Bool) :
    List AgentEvent × List AgentEvent :=
  if statusEvents ≠ [] ∨ forceWrite = true then (statusEvents, [])
  else ([], statusEvents)

/-- Steps performed by the two SIGINT/SIGTERM handlers, in order. -/
inductive ExitStep
  | logExit
  | forcedStatusFlush
  | endCurses
  | exitProcess
deriving DecidableEq, Repr

/-- clean_exit of the Agent (test.py 292-296): log, forced flush of the
status cache, end curses, exit. -/
def agentCleanExit : List ExitStep :=
  [ExitStep.logExit, ExitStep.forcedStatusFlush, ExitStep.endCurses,
   ExitStep.exitProcess]

/-- clean_exit of the Watchdog (check.py 388-391): log, end curses, exit.
No flush of any kind is performed. -/
def watchdogCleanExit : List ExitStep :=
  [ExitStep.logExit, ExitStep.endCurses, ExitStep.exitProcess]

/-- One parsed device_status row used by calculate_uptime_percentages
(test.py 328-335). -/
structure StatusPoint where
  time : ℚ
  status : String
deriving DecidableEq, Repr

/-- Loop body of calculate_uptime_percentages (test.py 328-335), folding
over the points: accumulator is (uptime, total_time, last_time,
last_status). -/
def uptimeFoldStep (acc : ℚ × ℚ × ℚ × Option String) (p : StatusPoint) :
    ℚ × ℚ × ℚ × Option String :=
  let u := acc.1
  let t := acc.2.1
  let lt := acc.2.2.1
  let ls := acc.2.2.2
  let duration := p.time - lt
  ((if ls = some "up" then u + duration else u), t + duration, p.time,
    some p.status)

/-- The loop of test.py 328-335 followed by the tail accounting of
test.py 337-341: returns the final (uptime, total_time). -/
def uptimeCore (now : ℚ) (acc : ℚ × ℚ × ℚ × Option String)
    (points : List StatusPoint) : ℚ × ℚ :=
  match points with
  | [] =>
    ((if acc.2.2.2 = some "up" then acc.1 + (now - acc.2.2.1) else acc.1),
      acc.2.1 + (now - acc.2.2.1))
  | p :: rest => uptimeCore now (uptimeFoldStep acc p) rest

/-- The per-period computation of calculate_uptime_percentages
(test.py 306-346): no points in the window falls back to the current
status (100 for up, else 0); otherwise walk the points and divide,
guarding total_time > 0. -/
def uptimePercentage (currentStatus : String) (periodStart now : ℚ)
    (points : List StatusPoint) : ℚ :=
  if points.isEmpty then (if currentStatus = "up" then 100 else 0)
  else
    let r := uptimeCore now (0, 0, periodStart, none) points
    if 0 < r.2 then r.1 / r.2 * 100 else 0

/-- One raw device_status row before timestamp parsing: the time value the
string denotes, whether the string carries a fractional-seconds component,
and the status. -/
structure RawStatusPoint where
  time : ℚ
  hasMicroseconds : Bool
  status : String
deriving DecidableEq, Repr

/-- The strptime call of test.py 329 accepts only the single format with
fractional seconds; a timestamp without that component raises ValueError,
modelled as none. -/
def parsePointTime (p : RawStatusPoint) : Option StatusPoint :=
  if p.hasMicroseconds then some ⟨p.time, p.status⟩ else none

/-- Parse all points of one period; the first failing timestamp aborts the
computation, as the raised ValueError does in the loop. -/
def parsePoints : List RawStatusPoint → Option (List StatusPoint)
  | [] => some []
  | p :: rest =>
    match parsePointTime p, parsePoints rest with
    | some q, some qs => some (q :: qs)
    | _, _ => none

/-- calculate_uptime_percentages (test.py 299-352): compute the hour, day
and month percentages; the except branch at lines 349-352 replaces all
three with 0.0 whenever any exception occurred, discarding both any
freshly computed values and the previously held ones (the prev argument).
The modelled exception source is the timestamp parse of line 329. -/
def calculateUptimePercentages (currentStatus : String) (now : ℚ)
    (rawHour rawDay rawMonth : List RawStatusPoint)
    (_prev : ℚ × ℚ × ℚ) : ℚ × ℚ × ℚ :=
  match (parsePoints rawHour).map (uptimePercentage currentStatus (now - 3600) now),
      (parsePoints rawDay).map (uptimePercentage currentStatus (now - 86400) now),
      (parsePoints rawMonth).map (uptimePercentage currentStatus (now - 2592000) now) with
  | some h, some d, some m => (h, d, m)
  | _, _, _ => (0, 0, 0)

/-! ## Basic lemmas about the Watchdog decision function -/

/-- A device listed in the keepalive query result has a last keepalive. -/
theorem lastKeepalive_eq_some_of_mem (st : WatchdogStore) (mac : String)
    (h : mac ∈ allKeepaliveDevices st) :
    ∃ t, lastKeepalive st mac = some t := by
  obtain ⟨e, he, hmac⟩ := List.mem_map.1 h
  have hsome : (st.keepalive.find? (fun k => k.mac == mac)).isSome := by
    rw [List.find?_isSome]
    exact ⟨e, he, by simp [hmac]⟩
  obtain ⟨e0, he0⟩ := Option.isSome_iff_exists.1 hsome
  exact ⟨e0.time, by rw [lastKeepalive, he0, Option.map_some']⟩

/-- A device known to the keepalive check and not suspended is in the
keepalive query result. -/
theorem mem_keepalive_of_mem_allDevices (st : WatchdogStore) (mac : String)
    (hmem : mac ∈ allDevices st) (hns : mac ∉ st.suspended) :
    mac ∈ allKeepaliveDevices st := by
  have h2 : mac ∈ st.suspended ++ allKeepaliveDevices st := by
    rw [allDevices] at hmem
    exact (List.mem_dedup).1 hmem
  rcases List.mem_append.1 h2 with h | h
  · exact absurd h hns
  · exact h

/-- C1.  For every device known to the reconciliation tick (via the
suspension list or the keepalive history) that is not suspended and has no
keepalive record, the keepalive check computes status "unknown" (this
situation cannot arise: every known, unsuspended device has a keepalive
record, so the statement holds vacuously); the status "down" is assigned
exactly to devices whose last keepalive exists but is older than the
threshold; and the heartbeat write reports "unknown", not "down", for an
unsuspended device with no cached status. -/
theorem C1_unknown_vs_down (st : WatchdogStore) (now th : ℚ) (mac : String)
    (m : StatusMap) (hmem : mac ∈ allDevices st) :
    ((mac ∉ st.suspended ∧ lastKeepalive st mac = none) →
        newStatusOf st now th mac = "unknown") ∧
    (newStatusOf st now th mac = "down" →
        ∃ t, lastKeepalive st mac = some t ∧ now - t > th) ∧
    (mac ∉ st.suspended → m.lookup mac = none →
        heartbeatStatus st m mac = "unknown") := by
  refine ⟨?_, ?_, ?_⟩
  · rintro ⟨hns, hnone⟩
    obtain ⟨t, ht⟩ := lastKeepalive_eq_some_of_mem st mac
      (mem_keepalive_of_mem_allDevices st mac hmem hns)
    rw [ht] at hnone
    cases hnone
  · intro hdown
    by_cases hs : mac ∈ st.suspended
    · rw [newStatusOf, if_pos hs] at hdown
      exact absurd hdown (by decide)
    · obtain ⟨t, ht⟩ := lastKeepalive_eq_some_of_mem st mac
        (mem_keepalive_of_mem_allDevices st mac hmem hs)
      by_cases hgt : now - t > th
      · exact ⟨t, ht, hgt⟩
      · rw [newStatusOf, if_neg hs] at hdown
        simp only [ht, if_neg hgt] at hdown
        exact absurd hdown (by decide)
  · intro hns hlook
    simp [heartbeatStatus, hns, hlook]

/-- C1 witness: a concrete store with one suspended device and one stale
keepalive device; the conclusion is evaluated at the keepalive device. -/
theorem C1_unknown_vs_down_witness :
    ((("d1" ∉ (["s1"] : List String)) ∧
        lastKeepalive ⟨["s1"], [⟨"d1", 0⟩], []⟩ "d1" = none) →
      newStatusOf ⟨["s1"], [⟨"d1", 0⟩], []⟩ 200 120 "d1" = "unknown") ∧
    (newStatusOf ⟨["s1"], [⟨"d1", 0⟩], []⟩ 200 120 "d1" = "down" →
      ∃ t, lastKeepalive ⟨["s1"], [⟨"d1", 0⟩], []⟩ "d1" = some t ∧
        200 - t > 120) ∧
    ("d1" ∉ (["s1"] : List String) →
      List.lookup "d1" ([] : StatusMap) = none →
      heartbeatStatus ⟨["s1"], [⟨"d1", 0⟩], []⟩ ([] : StatusMap) "d1" = "unknown") :=
  C1_unknown_vs_down ⟨["s1"], [⟨"d1", 0⟩], []⟩ 200 120 "d1" []
    (by simp [allDevices, allKeepaliveDevices, List.dedup])

/-- C2.  Suspension precedence: a suspended device gets effective status
"maintenance" from the keepalive check regardless of keepalive recency, and
the Agent reports "maintenance" instead of "up" whenever suspended, even
while its connectivity check succeeds. -/
theorem C2_suspension_precedence :
    (∀ (st : WatchdogStore) (now th : ℚ) (mac : String),
        mac ∈ st.suspended → newStatusOf st now th mac = "maintenance") ∧
    (∀ conn sim : Bool, agentCurrentStatus conn sim true = "maintenance") := by
  constructor
  · intro st now th mac hs
    rw [newStatusOf, if_pos hs]
  · intro conn sim
    simp [agentCurrentStatus]

/-- C2 witness: a suspended device whose keepalive is one second old is
still reported as maintenance by both sides. -/
theorem C2_suspension_precedence_witness :
    newStatusOf ⟨["s1"], [⟨"s1", 99⟩], []⟩ 100 120 "s1" = "maintenance" ∧
    agentCurrentStatus true false true = "maintenance" :=
  ⟨C2_suspension_precedence.1 ⟨["s1"], [⟨"s1", 99⟩], []⟩ 100 120 "s1"
      (by decide),
   C2_suspension_precedence.2 true false⟩

/-- C3.  Timeout invariant: an unsuspended device whose last keepalive is
older than the threshold is computed "down" by the keepalive check. -/
theorem C3_timeout_down (st : WatchdogStore) (now th t : ℚ) (mac : String)
    (hns : mac ∉ st.suspended) (hk : lastKeepalive st mac = some t)
    (hold : now - t > th) : newStatusOf st now th mac = "down" := by
  simp [newStatusOf, hns, hk, hold]

/-- C3 witness: keepalive at time 0, tick at time 200, threshold 120. -/
theorem C3_timeout_down_witness :
    newStatusOf ⟨[], [⟨"d1", 0⟩], []⟩ 200 120 "d1" = "down" :=
  C3_timeout_down ⟨[], [⟨"d1", 0⟩], []⟩ 200 120 0 "d1" (by decide)
    (by simp [lastKeepalive, List.find?]) (by norm_num)

/-! ## Lemmas about one Watchdog tick -/

/-- The per-device keepalive body never touches the timer anchors. -/
theorem keepaliveCheckDevice_lastKA (st : WatchdogStore) (now th : ℚ)
    (s : WatchState) (mac : String) :
    (keepaliveCheckDevice st now th s mac).lastKA = s.lastKA := by
  simp only [keepaliveCheckDevice]
  split <;> rfl

theorem keepaliveCheckDevice_lastHB (st : WatchdogStore) (now th : ℚ)
    (s : WatchState) (mac : String) :
    (keepaliveCheckDevice st now th s mac).lastHB = s.lastHB := by
  simp only [keepaliveCheckDevice]
  split <;> rfl

theorem foldl_keepaliveCheckDevice_lastHB (st : WatchdogStore) (now th : ℚ) :
    ∀ (l : List String) (s : WatchState),
      (l.foldl (keepaliveCheckDevice st now th) s).lastHB = s.lastHB := by
  intro l
  induction l with
  | nil => intro s; rfl
  | cons d rest ih =>
    intro s
    rw [List.foldl_cons, ih, keepaliveCheckDevice_lastHB]

theorem performKeepaliveCheck_lastHB (st : WatchdogStore) (now th : ℚ)
    (s : WatchState) :
    (performKeepaliveCheck st now th s).lastHB = s.lastHB :=
  foldl_keepaliveCheckDevice_lastHB st now th (allDevices st) s

/-- Debounce invariant of the keepalive pass, folded form: a device whose
cached status already equals the freshly computed one gets no event
appended by the pass, and its cache entry is unchanged. -/
theorem foldl_keepaliveCheck_unchanged (st : WatchdogStore) (now th : ℚ)
    (mac : String) :
    ∀ (l : List String) (s : WatchState),
      s.nodeStatuses.lookup mac = some (newStatusOf st now th mac) →
      ((l.foldl (keepaliveCheckDevice st now th) s).events.filter
          (fun e => e.mac == mac)
        = s.events.filter (fun e => e.mac == mac)) ∧
      (l.foldl (keepaliveCheckDevice st now th) s).nodeStatuses.lookup mac
        = some (newStatusOf st now th mac) := by
  intro l
  induction l with
  | nil => intro s h; exact ⟨rfl, h⟩
  | cons d rest ih =>
    intro s h
    rw [List.foldl_cons]
    by_cases hd : d = mac
    · subst hd
      have hskip : keepaliveCheckDevice st now th s d = s := by
        simp only [keepaliveCheckDevice]
        rw [if_pos h]
      rw [hskip]
      exact ih s h
    · by_cases hw : s.nodeStatuses.lookup d = some (newStatusOf st now th d)
      · have hskip : keepaliveCheckDevice st now th s d = s := by
          simp only [keepaliveCheckDevice]
          rw [if_pos hw]
        rw [hskip]
        exact ih s h
      · have hwrite : keepaliveCheckDevice st now th s d =
            ⟨s.lastKA, s.lastHB,
              (d, newStatusOf st now th d) :: s.nodeStatuses,
              s.events ++ [⟨d, newStatusOf st now th d, now⟩]⟩ := by
          simp only [keepaliveCheckDevice]
          rw [if_neg hw]
        have hbe : (mac == d) = false := beq_false_of_ne (Ne.symm hd)
        have hbe2 : (d == mac) = false := beq_false_of_ne hd
        have hlook : List.lookup mac
            ((d, newStatusOf st now th d) :: s.nodeStatuses)
              = List.lookup mac s.nodeStatuses := by
          simp [List.lookup, hbe]
        have hrec := ih
          ⟨s.lastKA, s.lastHB,
            (d, newStatusOf st now th d) :: s.nodeStatuses,
            s.events ++ [⟨d, newStatusOf st now th d, now⟩]⟩
          (by simpa only [hlook] using h)
        rw [hwrite]
        refine ⟨?_, hrec.2⟩
        rw [hrec.1]
        simp [List.filter_append, hbe2]

/-- Full characterization of the events appended by one Watchdog tick: the
keepalive pass contributes its change events when due, and the heartbeat
pass, gated only by the time since the last heartbeat pass, contributes one
event per known device. -/
theorem watchdogTick_events_eq (st : WatchdogStore) (th hb now : ℚ)
    (s : WatchState) :
    (watchdogTick st th hb now s).events =
      (if th ≤ now - s.lastKA then (performKeepaliveCheck st now th s).events
        else s.events)
      ++ (if hb ≤ now - s.lastHB then
            (heartbeatDevices st).map (fun mac =>
              ⟨mac, heartbeatStatus st
                  (if th ≤ now - s.lastKA
                    then (performKeepaliveCheck st now th s).nodeStatuses
                    else s.nodeStatuses) mac, now⟩)
          else []) := by
  by_cases hka : th ≤ now - s.lastKA <;> by_cases hhb : hb ≤ now - s.lastHB <;>
    simp [watchdogTick, performHeartbeatWrite, hka, hhb,
      performKeepaliveCheck_lastHB]

/-- C4 counterexample.  Threshold 10, heartbeat interval 300.  The first
tick (t=290) records the only event for device d, status up, at time 290.
At the second tick (t=300) the effective status is unchanged and only 10
seconds, far less than the heartbeat interval, have elapsed since the
timestamp of the last recorded event of d, yet a reaffirmation event at 300
is appended, because the heartbeat gate compares against the time of the
last heartbeat pass (0), not against the timestamp of the last event of d. -/
theorem C4_counterexample :
    (watchdogTick ⟨[], [⟨"d", 289⟩], ["d"]⟩ 10 300 290 ⟨0, 0, [], []⟩).events
      = [⟨"d", "up", 290⟩] ∧
    (watchdogTick ⟨[], [⟨"d", 299⟩], ["d"]⟩ 10 300 300
        (watchdogTick ⟨[], [⟨"d", 289⟩], ["d"]⟩ 10 300 290 ⟨0, 0, [], []⟩)).events
      = [⟨"d", "up", 290⟩, ⟨"d", "up", 300⟩] ∧
    ((300 : ℚ) - 290 < 300) := by
  refine ⟨?_, ?_, by norm_num⟩
  · norm_num [watchdogTick, performKeepaliveCheck, allDevices,
      allKeepaliveDevices, keepaliveCheckDevice, newStatusOf, lastKeepalive,
      List.find?, List.dedup, performHeartbeatWrite, heartbeatDevices,
      heartbeatStatus, List.lookup]
    simp
    norm_num
  · norm_num [watchdogTick, performKeepaliveCheck, allDevices,
      allKeepaliveDevices, keepaliveCheckDevice, newStatusOf, lastKeepalive,
      List.find?, List.dedup, performHeartbeatWrite, heartbeatDevices,
      heartbeatStatus, List.lookup]
    simp
    norm_num

/-- C4 amended.  The reaffirmation gate is global, not per device: one tick
appends exactly the keepalive-pass change events plus, when at least the
heartbeat interval has elapsed since the last heartbeat pass, one
reaffirmation event per known device at the tick time, regardless of each
device's own last event timestamp; a device whose effective status equals
its cached status gets nothing appended by the keepalive pass, so between
heartbeat passes an unchanged device gets no events. -/
theorem C4_heartbeat_gate (st : WatchdogStore) (th hb now : ℚ)
    (s : WatchState) :
    ((watchdogTick st th hb now s).events =
      (if th ≤ now - s.lastKA then (performKeepaliveCheck st now th s).events
        else s.events)
      ++ (if hb ≤ now - s.lastHB then
            (heartbeatDevices st).map (fun mac =>
              ⟨mac, heartbeatStatus st
                  (if th ≤ now - s.lastKA
                    then (performKeepaliveCheck st now th s).nodeStatuses
                    else s.nodeStatuses) mac, now⟩)
          else [])) ∧
    (∀ mac, s.nodeStatuses.lookup mac = some (newStatusOf st now th mac) →
      (performKeepaliveCheck st now th s).events.filter (fun e => e.mac == mac)
        = s.events.filter (fun e => e.mac == mac)) ∧
    (hb ≤ now - s.lastHB → ∀ mac, mac ∈ heartbeatDevices st →
      ∃ stat, (⟨mac, stat, now⟩ : StatusEvent) ∈ (watchdogTick st th hb now s).events) := by
  refine ⟨watchdogTick_events_eq st th hb now s, ?_, ?_⟩
  · intro mac h
    exact (foldl_keepaliveCheck_unchanged st now th mac (allDevices st) s h).1
  · intro hhb mac hmem
    refine ⟨heartbeatStatus st
      (if th ≤ now - s.lastKA
        then (performKeepaliveCheck st now th s).nodeStatuses
        else s.nodeStatuses) mac, ?_⟩
    rw [watchdogTick_events_eq]
    refine List.mem_append.2 (Or.inr ?_)
    rw [if_pos hhb]
    exact List.mem_map.2 ⟨mac, hmem, rfl⟩

/-- C4 witness: concrete instances of the three conjuncts of the amended
claim.  At t=5 neither pass is due, so nothing is appended; the keepalive
pass appends nothing for a device whose cached status matches; at t=400 the
heartbeat pass is due and appends an event for device d. -/
theorem C4_heartbeat_gate_witness :
    ((watchdogTick ⟨[], [⟨"d", 4⟩], ["d"]⟩ 10 300 5 ⟨0, 0, [("d", "up")], []⟩).events =
      (if (10 : ℚ) ≤ 5 - 0 then
        (performKeepaliveCheck ⟨[], [⟨"d", 4⟩], ["d"]⟩ 5 10
          ⟨0, 0, [("d", "up")], []⟩).events
        else ([] : List StatusEvent))
      ++ (if (300 : ℚ) ≤ 5 - 0 then
            (heartbeatDevices ⟨[], [⟨"d", 4⟩], ["d"]⟩).map (fun mac =>
              ⟨mac, heartbeatStatus ⟨[], [⟨"d", 4⟩], ["d"]⟩
                  (if (10 : ℚ) ≤ 5 - 0
                    then (performKeepaliveCheck ⟨[], [⟨"d", 4⟩], ["d"]⟩ 5 10
                      ⟨0, 0, [("d", "up")], []⟩).nodeStatuses
                    else [("d", "up")]) mac, 5⟩)
          else [])) ∧
    ((performKeepaliveCheck ⟨[], [⟨"d", 4⟩], ["d"]⟩ 5 10
        ⟨0, 0, [("d", "up")], []⟩).events.filter (fun e => e.mac == "d")
      = List.filter (fun e => e.mac == "d") ([] : List StatusEvent)) ∧
    (∃ stat, (⟨"d", stat, 400⟩ : StatusEvent) ∈
      (watchdogTick ⟨[], [⟨"d", 4⟩], ["d"]⟩ 10 300 400
        ⟨0, 0, [("d", "up")], []⟩).events) :=
  ⟨(C4_heartbeat_gate ⟨[], [⟨"d", 4⟩], ["d"]⟩ 10 300 5
      ⟨0, 0, [("d", "up")], []⟩).1,
   (C4_heartbeat_gate ⟨[], [⟨"d", 4⟩], ["d"]⟩ 10 300 5
      ⟨0, 0, [("d", "up")], []⟩).2.1 "d"
      (by norm_num [newStatusOf, lastKeepalive, List.find?, List.lookup]),
   (C4_heartbeat_gate ⟨[], [⟨"d", 4⟩], ["d"]⟩ 10 300 400
      ⟨0, 0, [("d", "up")], []⟩).2.2 (by norm_num) "d" (by decide)⟩

/-! ## Settings handling at startup (C5) -/

/-- C5 counterexample.  A failed settings read (None) makes both loops
exit instead of continuing with defaults, and a malformed numeric setting
in the Agent raises an uncaught ValueError (fatal), contradicting the
claim that a missing or malformed setting value is never fatal. -/
theorem C5_counterexample :
    checkNodeStatusStartup none = WatchdogStartup.exited ∧
    monitorDeviceStartup none = AgentStartup.exited ∧
    monitorDeviceStartup (some [("STATUS_INTERVAL", "two")])
      = AgentStartup.crashed "STATUS_INTERVAL" := by
  refine ⟨rfl, rfl, by decide⟩

/-- C5 amended.  A failed or empty settings read at startup exits both
loops.  With settings present, the Watchdog always reaches its running
state, substituting 120 for a missing or malformed CHECKALIVE (and
similarly 300 for HEARTBEAT); the Agent substitutes defaults only for
missing values, and crashes with an uncaught ValueError on a malformed
numeric value such as STATUS_INTERVAL. -/
theorem C5_settings_fatal_empty :
    checkNodeStatusStartup none = WatchdogStartup.exited ∧
    checkNodeStatusStartup (some []) = WatchdogStartup.exited ∧
    monitorDeviceStartup none = AgentStartup.exited ∧
    monitorDeviceStartup (some []) = AgentStartup.exited ∧
    (∀ s : Settings, s ≠ [] →
      checkNodeStatusStartup (some s) = WatchdogStartup.running
        ((pyInt? (getSettingD s "CHECKALIVE" "120")).getD 120)
        ((pyInt? (getSettingD s "HEARTBEAT" "300")).getD 300)
        (getSettingD s "NTP_SERVER" "pool.ntp.org")) ∧
    (∀ s : Settings, s.lookup "CHECKALIVE" = none →
      (pyInt? (getSettingD s "CHECKALIVE" "120")).getD 120 = 120) ∧
    (∀ (s : Settings) (v : String), s.lookup "CHECKALIVE" = some v →
      pyInt? v = none →
      (pyInt? (getSettingD s "CHECKALIVE" "120")).getD 120 = 120) ∧
    (∀ s : Settings, s ≠ [] →
      pyInt? (getSettingD s "STATUS_INTERVAL" "2") = none →
      monitorDeviceStartup (some s) = AgentStartup.crashed "STATUS_INTERVAL") := by
  refine ⟨rfl, rfl, rfl, rfl, ?_, ?_, ?_, ?_⟩
  · intro s hne
    have he : s.isEmpty = false := by
      cases s with
      | nil => exact absurd rfl hne
      | cons a l => rfl
    simp [checkNodeStatusStartup, he]
  · intro s h
    have hv : getSettingD s "CHECKALIVE" "120" = "120" := by
      rw [getSettingD, h]
      rfl
    rw [hv]
    decide
  · intro s v hv hnone
    have hg : getSettingD s "CHECKALIVE" "120" = v := by
      rw [getSettingD, hv]
      rfl
    rw [hg, hnone]
    rfl
  · intro s hne hbad
    have he : s.isEmpty = false := by
      cases s with
      | nil => exact absurd rfl hne
      | cons a l => rfl
    simp only [monitorDeviceStartup, he, Bool.false_eq_true, if_false]
    rw [hbad]

/-- C5 witness: a settings map whose only entry is a malformed CHECKALIVE
keeps the Watchdog running on the default 120; a malformed STATUS_INTERVAL
crashes the Agent. -/
theorem C5_settings_fatal_empty_witness :
    checkNodeStatusStartup (some [("CHECKALIVE", "twenty")])
      = WatchdogStartup.running
        ((pyInt? (getSettingD [("CHECKALIVE", "twenty")] "CHECKALIVE" "120")).getD 120)
        ((pyInt? (getSettingD [("CHECKALIVE", "twenty")] "HEARTBEAT" "300")).getD 300)
        (getSettingD [("CHECKALIVE", "twenty")] "NTP_SERVER" "pool.ntp.org") ∧
    (pyInt? (getSettingD [("CHECKALIVE", "twenty")] "CHECKALIVE" "120")).getD 120
      = 120 ∧
    monitorDeviceStartup (some [("STATUS_INTERVAL", "twenty")])
      = AgentStartup.crashed "STATUS_INTERVAL" :=
  ⟨C5_settings_fatal_empty.2.2.2.2.1 [("CHECKALIVE", "twenty")] (by decide),
   C5_settings_fatal_empty.2.2.2.2.2.2.1 [("CHECKALIVE", "twenty")] "twenty"
     (by decide) (by decide),
   C5_settings_fatal_empty.2.2.2.2.2.2.2 [("STATUS_INTERVAL", "twenty")]
     (by decide) (by decide)⟩

/-! ## Per-device isolation of a pass (C6) -/

/-- Devices processed by a pass: exactly the longest prefix on which the
per-device body succeeds. -/
theorem performDevicePass_processed (f : String → Except String Unit) :
    ∀ l : List String,
      (performDevicePass l f).1 = l.takeWhile (fun d => exceptOk (f d)) := by
  intro l
  induction l with
  | nil => rfl
  | cons d rest ih =>
    cases hf : f d with
    | ok u =>
      simp [performDevicePass, List.takeWhile, hf, exceptOk, ih]
    | error e =>
      simp [performDevicePass, List.takeWhile, hf, exceptOk]

/-- C6 counterexample.  Two devices a and b; processing a raises a store
error while b would succeed, yet the pass processes nothing beyond the
failing device: b is not processed in that pass. -/
theorem C6_counterexample :
    (performDevicePass ["a", "b"]
      (fun mac => if mac = "a" then Except.error "store write failed"
        else Except.ok ())).1 = [] ∧
    (fun mac => if mac = "a"
        then (Except.error "store write failed" : Except String Unit)
        else Except.ok ()) "b" = Except.ok () := by
  constructor <;> rfl

/-- C6 amended.  An error raised while processing one device aborts the
remainder of that pass: the devices processed are exactly those before the
first failing one.  The exception is caught at the pass boundary (logged),
so the loop survives, and only when every device succeeds is the whole
device list processed. -/
theorem C6_pass_aborts (devices : List String)
    (f : String → Except String Unit) :
    ((performDevicePass devices f).1
      = devices.takeWhile (fun d => exceptOk (f d))) ∧
    ((∀ d ∈ devices, exceptOk (f d) = true) →
      (performDevicePass devices f).1 = devices) := by
  refine ⟨performDevicePass_processed f devices, ?_⟩
  intro hall
  rw [performDevicePass_processed f devices]
  induction devices with
  | nil => rfl
  | cons d rest ih =>
    rw [List.takeWhile_cons, hall d (List.mem_cons_self d rest)]
    simp only [if_true]
    rw [ih (fun x hx => hall x (List.mem_cons_of_mem d hx))]

/-- C6 witness: with an always-succeeding body both conjuncts hold at a
concrete device list. -/
theorem C6_pass_aborts_witness :
    ((performDevicePass ["x", "y"]
        (fun _ => (Except.ok () : Except String Unit))).1
      = List.takeWhile
          (fun d => exceptOk ((fun _ => (Except.ok () : Except String Unit)) d))
          ["x", "y"]) ∧
    (performDevicePass ["x", "y"]
        (fun _ => (Except.ok () : Except String Unit))).1 = ["x", "y"] :=
  ⟨(C6_pass_aborts ["x", "y"] (fun _ => Except.ok ())).1,
   (C6_pass_aborts ["x", "y"] (fun _ => Except.ok ())).2 (fun _ _ => rfl)⟩

/-! ## Exit behavior (C9) -/

/-- C9 counterexample.  The Watchdog exit handler performs no forced
status flush, while the Agent one does: the claim fails for the Watchdog. -/
theorem C9_counterexample :
    ExitStep.forcedStatusFlush ∉ watchdogCleanExit ∧
    ExitStep.forcedStatusFlush ∈ agentCleanExit := by
  constructor
  · decide
  · decide

/-- C9 amended.  Only the Agent performs the final forced flush on
SIGINT/SIGTERM, and that flush persists every cached event and empties the
cache; the Watchdog handler only logs, ends the UI and exits. -/
theorem C9_exit_flush :
    ExitStep.forcedStatusFlush ∈ agentCleanExit ∧
    watchdogCleanExit
      = [ExitStep.logExit, ExitStep.endCurses, ExitStep.exitProcess] ∧
    (∀ cache : List AgentEvent, writeStatusToInfluxdb cache true = (cache, [])) := by
  refine ⟨by decide, rfl, ?_⟩
  intro cache
  rw [writeStatusToInfluxdb, if_pos (Or.inr rfl)]

/-! ## Uptime exception handling (C10) -/

/-- A single unparsable timestamp aborts the parse of its whole period. -/
theorem parsePoints_eq_none {p : RawStatusPoint} :
    ∀ l : List RawStatusPoint, p ∈ l → parsePointTime p = none →
      parsePoints l = none := by
  intro l
  induction l with
  | nil => intro h _; cases h
  | cons q rest ih =>
    intro hmem hp
    rcases List.mem_cons.1 hmem with rfl | hmem2
    · cases hrest : parsePoints rest <;> simp [parsePoints, hp, hrest]
    · have hr := ih hmem2 hp
      cases hq : parsePointTime q <;> simp [parsePoints, hq, hr]

/-- C10.  Any parse failure while computing the uptime percentages, for
example a StatusEvent timestamp lacking the fractional-seconds component
required by the single accepted strptime format, makes the computation
return (0, 0, 0) for all three periods, regardless of the previously held
values. -/
theorem C10_exception_zeroes (cs : String) (now : ℚ)
    (rh rd rm : List RawStatusPoint) (prev : ℚ × ℚ × ℚ) (p : RawStatusPoint)
    (hmem : p ∈ rh ∨ p ∈ rd ∨ p ∈ rm) (hfrac : p.hasMicroseconds = false) :
    calculateUptimePercentages cs now rh rd rm prev = (0, 0, 0) := by
  have hp : parsePointTime p = none := by
    simp [parsePointTime, hfrac]
  rcases hmem with h | h | h
  · have h0 := parsePoints_eq_none rh h hp
    cases h1 : parsePoints rd <;> cases h2 : parsePoints rm <;>
      simp [calculateUptimePercentages, h0, h1, h2]
  · have h0 := parsePoints_eq_none rd h hp
    cases h1 : parsePoints rh <;> cases h2 : parsePoints rm <;>
      simp [calculateUptimePercentages, h0, h1, h2]
  · have h0 := parsePoints_eq_none rm h hp
    cases h1 : parsePoints rh <;> cases h2 : parsePoints rd <;>
      simp [calculateUptimePercentages, h0, h1, h2]

/-- C10 witness: one bad timestamp in the day window zeroes all three
percentages, discarding the previous values (7, 8, 9). -/
theorem C10_exception_zeroes_witness :
    calculateUptimePercentages "up" 0 [] [⟨1, false, "up"⟩] [] (7, 8, 9)
      = (0, 0, 0) :=
  C10_exception_zeroes "up" 0 [] [⟨1, false, "up"⟩] [] (7, 8, 9)
    ⟨1, false, "up"⟩ (Or.inr (Or.inl (List.mem_cons_self _ _))) rfl

/-! ## Uptime replay lemmas (C7, C8) -/

/-- The accumulated total of the walk telescopes: whatever the point times
are, total_time ends at the initial total plus (now - initial last_time). -/
theorem uptimeCore_total (now : ℚ) :
    ∀ (pts : List StatusPoint) (u t lt : ℚ) (ls : Option String),
      (uptimeCore now (u, t, lt, ls) pts).2 = t + (now - lt) := by
  intro pts
  induction pts with
  | nil => intro u t lt ls; rfl
  | cons p rest ih =>
    intro u t lt ls
    simp only [uptimeCore, uptimeFoldStep]
    rw [ih]
    ring

/-- When the walk starts with 0 ≤ uptime ≤ total and the times are
non-decreasing from last_time up to now, the final uptime stays within
[0, total]. -/
theorem uptimeCore_bounds (now : ℚ) :
    ∀ (pts : List StatusPoint) (u t lt : ℚ) (ls : Option String),
      0 ≤ u → u ≤ t →
      List.Chain (· ≤ ·) lt (pts.map (·.time) ++ [now]) →
      0 ≤ (uptimeCore now (u, t, lt, ls) pts).1 ∧
        (uptimeCore now (u, t, lt, ls) pts).1
          ≤ (uptimeCore now (u, t, lt, ls) pts).2 := by
  intro pts
  induction pts with
  | nil =>
    intro u t lt ls h0 hut hch
    have hle : lt ≤ now := (List.chain_cons.1 hch).1
    constructor
    · dsimp [uptimeCore]
      split <;> linarith
    · dsimp [uptimeCore]
      split <;> linarith
  | cons p rest ih =>
    intro u t lt ls h0 hut hch
    rw [List.map_cons, List.cons_append, List.chain_cons] at hch
    obtain ⟨hle, hch2⟩ := hch
    simp only [uptimeCore, uptimeFoldStep]
    refine ih _ _ _ _ ?_ ?_ hch2
    · split_ifs with hls
      · linarith
      · exact h0
    · split_ifs with hls
      · linarith
      · linarith

/-- When the running status is up and every remaining point is up, the
walk adds every duration to both accumulators, so uptime equals total
whenever they start equal. -/
theorem uptimeCore_all_up (now : ℚ) :
    ∀ (pts : List StatusPoint) (u t lt : ℚ),
      (∀ p ∈ pts, p.status = "up") → u = t →
      (uptimeCore now (u, t, lt, some "up") pts).1
        = (uptimeCore now (u, t, lt, some "up") pts).2 := by
  intro pts
  induction pts with
  | nil =>
    intro u t lt _ hut
    dsimp [uptimeCore]
    rw [hut]
  | cons p rest ih =>
    intro u t lt hall hut
    have hps : p.status = "up" := hall p (List.mem_cons_self p rest)
    simp only [uptimeCore, uptimeFoldStep, if_true]
    rw [hps]
    exact ih (u + (p.time - lt)) (t + (p.time - lt)) p.time
      (fun q hq => hall q (List.mem_cons_of_mem p hq)) (by rw [hut])

/-- When neither the running status nor any remaining point is up, the
uptime accumulator never moves. -/
theorem uptimeCore_no_up (now : ℚ) :
    ∀ (pts : List StatusPoint) (u t lt : ℚ) (ls : Option String),
      (∀ p ∈ pts, p.status ≠ "up") → ls ≠ some "up" →
      (uptimeCore now (u, t, lt, ls) pts).1 = u := by
  intro pts
  induction pts with
  | nil =>
    intro u t lt ls _ hls
    dsimp [uptimeCore]
    rw [if_neg hls]
  | cons p rest ih =>
    intro u t lt ls hall hls
    simp only [uptimeCore, uptimeFoldStep]
    rw [if_neg hls]
    exact ih u (t + (p.time - lt)) p.time (some p.status)
      (fun q hq => hall q (List.mem_cons_of_mem p hq))
      (fun hcon => hall p (List.mem_cons_self p rest) (Option.some.inj hcon))

/-- C7 counterexample.  The range query of test.py 311-315 has no upper
time bound, so a device_status row with a timestamp after now (50 seconds
in the future here) enters the walk; the final segment then has negative
duration while the up segment keeps its full length, and the returned
percentage exceeds 100. -/
theorem C7_counterexample :
    100 < uptimePercentage "down" 0 3600 [⟨10, "up"⟩, ⟨3650, "down"⟩] := by
  norm_num [uptimePercentage, uptimeCore, uptimeFoldStep]
  simp
  norm_num

/-- C7 amended.  Provided every event timestamp lies between the window
start and now (non-decreasing, as the ascending-ordered query returns them
and the window intends), the computed percentage lies in [0, 100]; a
future-dated event can push it outside that range.  With zero events the
fallback returns 100 for current status up and 0 otherwise, and with a
zero-duration window the guard returns 0 instead of dividing by zero. -/
theorem C7_uptime_bounds (cs : String) (periodStart now : ℚ)
    (pts : List StatusPoint)
    (hch : List.Chain (· ≤ ·) periodStart (pts.map (·.time) ++ [now])) :
    (0 ≤ uptimePercentage cs periodStart now pts ∧
      uptimePercentage cs periodStart now pts ≤ 100) ∧
    (pts = [] → uptimePercentage cs periodStart now pts
      = (if cs = "up" then 100 else 0)) ∧
    (pts ≠ [] → now = periodStart →
      uptimePercentage cs periodStart now pts = 0) := by
  cases pts with
  | nil =>
    refine ⟨?_, ?_, ?_⟩
    · rw [uptimePercentage]
      simp only [List.isEmpty_nil, if_true]
      split_ifs <;> norm_num
    · intro _
      rfl
    · intro h
      exact absurd rfl h
  | cons p rest =>
    have hne : (p :: rest).isEmpty = false := rfl
    have htot := uptimeCore_total now (p :: rest) 0 0 periodStart none
    have hb := uptimeCore_bounds now (p :: rest) 0 0 periodStart none
      le_rfl le_rfl hch
    refine ⟨?_, ?_, ?_⟩
    · rw [uptimePercentage]
      simp only [hne, Bool.false_eq_true, if_false]
      split_ifs with hpos
      · have h1 : (uptimeCore now (0, 0, periodStart, none) (p :: rest)).1
            / (uptimeCore now (0, 0, periodStart, none) (p :: rest)).2 ≤ 1 :=
          (div_le_one hpos).2 hb.2
        have h0 : 0 ≤ (uptimeCore now (0, 0, periodStart, none) (p :: rest)).1
            / (uptimeCore now (0, 0, periodStart, none) (p :: rest)).2 :=
          div_nonneg hb.1 (le_of_lt hpos)
        constructor
        · positivity
        · nlinarith
      · norm_num
    · intro hcon
      exact absurd hcon (List.cons_ne_nil p rest)
    · intro _ hnow
      rw [uptimePercentage]
      simp only [hne, Bool.false_eq_true, if_false]
      rw [if_neg (by rw [htot, hnow]; norm_num)]

/-- C7 witness: a window from 0 to 100 containing one down event at 50;
the percentage is within bounds, and the fallback conjuncts are evaluated
as well. -/
theorem C7_uptime_bounds_witness :
    ((0 ≤ uptimePercentage "up" 0 100 [⟨50, "down"⟩] ∧
      uptimePercentage "up" 0 100 [⟨50, "down"⟩] ≤ 100) ∧
    ([⟨50, "down"⟩] = ([] : List StatusPoint) →
      uptimePercentage "up" 0 100 [⟨50, "down"⟩]
        = (if ("up" : String) = "up" then 100 else 0)) ∧
    (([⟨50, "down"⟩] : List StatusPoint) ≠ [] → (100 : ℚ) = 0 →
      uptimePercentage "up" 0 100 [⟨50, "down"⟩] = 0)) :=
  C7_uptime_bounds "up" 0 100 [⟨50, "down"⟩] (by norm_num [List.chain_cons])

/-- C8 counterexample.  A window [0, 3600) whose only event has status up
at time 1800: every event in the window is up, yet the result is 50, not
100, because the walk counts the stretch before the first event as not up
(last_status starts as None). -/
theorem C8_counterexample :
    uptimePercentage "up" 0 3600 [⟨1800, "up"⟩] = 50 ∧ (50 : ℚ) ≠ 100 := by
  constructor
  · norm_num [uptimePercentage, uptimeCore, uptimeFoldStep]
    simp
    norm_num
  · norm_num

/-- C8 amended.  If every event is up and additionally the first event sits
exactly at the window start (so that the initial not-up stretch has zero
length), the result is exactly 100; if no event in a nonempty window is up,
the result is exactly 0. -/
theorem C8_all_up_none_up (cs : String) (periodStart now : ℚ)
    (rest pts : List StatusPoint)
    (hall : ∀ p ∈ rest, p.status = "up") (hlt : periodStart < now)
    (hne : pts ≠ []) (hnone : ∀ p ∈ pts, p.status ≠ "up") :
    uptimePercentage cs periodStart now (⟨periodStart, "up"⟩ :: rest) = 100 ∧
    uptimePercentage cs periodStart now pts = 0 := by
  constructor
  · have hkey : (uptimeCore now (0, 0, periodStart, none)
        (⟨periodStart, "up"⟩ :: rest)).1
        = (uptimeCore now (0, 0, periodStart, none)
            (⟨periodStart, "up"⟩ :: rest)).2 := by
      simp only [uptimeCore, uptimeFoldStep]
      exact uptimeCore_all_up now rest _ _ _ hall (by norm_num)
    have htot := uptimeCore_total now (⟨periodStart, "up"⟩ :: rest) 0 0
      periodStart none
    have hpos : 0 < (uptimeCore now (0, 0, periodStart, none)
        (⟨periodStart, "up"⟩ :: rest)).2 := by
      rw [htot]
      linarith
    rw [uptimePercentage]
    simp only [List.isEmpty_cons, Bool.false_eq_true, if_false]
    rw [if_pos hpos, hkey, div_self (ne_of_gt hpos)]
    norm_num
  · cases pts with
    | nil => exact absurd rfl hne
    | cons q qs =>
      have hu : (uptimeCore now (0, 0, periodStart, none) (q :: qs)).1 = 0 := by
        simp only [uptimeCore, uptimeFoldStep]
        exact uptimeCore_no_up now qs _ _ _ _
          (fun p hp => hnone p (List.mem_cons_of_mem q hp))
          (fun hcon => hnone q (List.mem_cons_self q qs) (Option.some.inj hcon))
      rw [uptimePercentage]
      simp only [List.isEmpty_cons, Bool.false_eq_true, if_false]
      split_ifs with hpos
      · rw [hu]
        norm_num
      · rfl

/-- C8 witness: an all-up window starting exactly at the first event gives
100, and an all-down window gives 0. -/
theorem C8_all_up_none_up_witness :
    uptimePercentage "up" 0 3600 [⟨0, "up"⟩] = 100 ∧
    uptimePercentage "up" 0 3600 [⟨5, "down"⟩] = 0 :=
  C8_all_up_none_up "up" 0 3600 [] [⟨5, "down"⟩]
    (fun p hp => absurd hp (List.not_mem_nil p)) (by norm_num)
    (by simp)
    (by
      intro p hp
      rw [List.mem_singleton] at hp
      subst hp
      decide)
